import Mathlib

/-!
Shallow embedding of the percentile / comparative-analytics engine of the
china-Stock-Bond-Percentile-Fear-and-Greed-Index repository.

Numeric series are modelled as `List ℚ` (exact rational arithmetic in place of
Python floats); pandas `Series.tail(k)` and Python `l[-k:]` (for `k ≥ 1`) are
modelled by `lastN`; fallible Python code (raised exceptions) is modelled with
`Except`.  Timestamps are dropped: every series is the ordered list of its
values, oldest first, exactly as the source indexes it.
-/

/-- The last `k` elements of a list: models `pandas.Series.tail k` and the
Python slice `l[-k:]` for `k ≥ 1`. -/
def lastN {α : Type} (k : ℕ) (l : List α) : List α :=
  l.drop (l.length - k)

/-- Round to the nearest integer, halves to the even neighbour: models
Python's built-in `round` on exact values. -/
def roundHalfEven {α : Type} [LinearOrderedField α] [FloorRing α] (q : α) : ℤ :=
  if q - Int.floor q < 1 / 2 then Int.floor q
  else if 1 / 2 < q - Int.floor q then Int.floor q + 1
  else if Int.floor q % 2 = 0 then Int.floor q else Int.floor q + 1

/-- `round(q, d)` of Python, on exact values. -/
def pyRound {α : Type} [LinearOrderedField α] [FloorRing α] (q : α) (d : ℕ) : α :=
  ((roundHalfEven (q * 10 ^ d) : ℤ) : α) / 10 ^ d

/-- `PercentileService._calculate_percentile` (percentile_service.py, lines
212-227): take the trailing `window` elements when the series is at least that
long (otherwise the whole series), and return the fraction of them strictly
below `value`, times 100.  The `except` fallback of the source (return 50.0)
is unreachable here: the body is total. -/
def calculate_percentile (window : ℕ) (series : List ℚ) (value : ℚ) : ℚ :=
  let recent_data := if window ≤ series.length then series.drop (series.length - window) else series
  ((recent_data.filter (fun x => decide (x < value))).length : ℚ) / (recent_data.length : ℚ) * 100

/-- `PercentileService._calculate_historical_percentiles` (percentile_service.py,
lines 229-246): for each index `i` in `range(window, len series)`, the
percentile of `series[i]` against the window `series[i-window : i]`. -/
def calculate_historical_percentiles (window : ℕ) (series : List ℚ) : List ℚ :=
  (List.range' window (series.length - window)).map fun i =>
    let window_data := (series.drop (i - window)).take window
    let current_value := series.getD i 0
    ((window_data.filter (fun x => decide (x < current_value))).length : ℚ) /
      (window_data.length : ℚ) * 100

theorem length_calculate_historical_percentiles (W : ℕ) (S : List ℚ) :
    (calculate_historical_percentiles W S).length = S.length - W := by
  simp [calculate_historical_percentiles, List.length_range']

theorem getD_calculate_historical_percentiles (W : ℕ) (S : List ℚ) (i : ℕ)
    (h1 : W ≤ i) (h2 : i < S.length) :
    (calculate_historical_percentiles W S).getD (i - W) 0
      = ((((S.drop (i - W)).take W).filter (fun x => decide (x < S.getD i 0))).length : ℚ) /
          ((((S.drop (i - W)).take W)).length : ℚ) * 100 := by
  have hlt : i - W < (calculate_historical_percentiles W S).length := by
    rw [length_calculate_historical_percentiles]; omega
  rw [List.getD_eq_getElem _ _ hlt]
  unfold calculate_historical_percentiles
  rw [List.getElem_map, List.getElem_range']
  have hidx : W + 1 * (i - W) = i := by omega
  rw [hidx]

/-- C1: for a non-empty series `S` and positive window `W`,
`_calculate_percentile` applied to `S` and its last value `v` returns exactly
`100 * k / min n W`, where `k` counts the elements of the trailing
`min n W`-element window that are strictly less than `v` (ties with `v` are
not counted, as the filter uses strict `<`), and the result lies in
`[0, 100]`. -/
theorem calculate_percentile_formula (W : ℕ) (S : List ℚ) (hS : 1 ≤ S.length) (hW : 1 ≤ W) :
    calculate_percentile W S (S.getLastD 0)
        = 100 * (((S.drop (S.length - min S.length W)).filter
            (fun x => decide (x < S.getLastD 0))).length : ℚ) / ((min S.length W : ℕ) : ℚ)
      ∧ 0 ≤ calculate_percentile W S (S.getLastD 0)
      ∧ calculate_percentile W S (S.getLastD 0) ≤ 100 := by
  have hrec : (if W ≤ S.length then S.drop (S.length - W) else S)
      = S.drop (S.length - min S.length W) := by
    split
    · congr 1
      omega
    · have h1 : S.length - min S.length W = 0 := by omega
      rw [h1, List.drop_zero]
  have hcalc : calculate_percentile W S (S.getLastD 0)
      = (((S.drop (S.length - min S.length W)).filter
          (fun x => decide (x < S.getLastD 0))).length : ℚ) / ((min S.length W : ℕ) : ℚ) * 100 := by
    simp only [calculate_percentile, hrec, List.length_drop]
    have h2 : S.length - (S.length - min S.length W) = min S.length W := by omega
    rw [h2]
  have hlen : (S.drop (S.length - min S.length W)).length = min S.length W := by
    rw [List.length_drop]; omega
  have hkle : ((S.drop (S.length - min S.length W)).filter
      (fun x => decide (x < S.getLastD 0))).length ≤ min S.length W := by
    have h4 := List.length_filter_le (fun x => decide (x < S.getLastD 0))
      (S.drop (S.length - min S.length W))
    omega
  have hmpos : (0 : ℚ) < ((min S.length W : ℕ) : ℚ) := by
    have h3 : 1 ≤ min S.length W := by omega
    exact_mod_cast h3
  refine ⟨?_, ?_, ?_⟩
  · rw [hcalc, div_mul_eq_mul_div, mul_comm]
  · rw [hcalc]
    positivity
  · rw [hcalc]
    have hdiv : (((S.drop (S.length - min S.length W)).filter
        (fun x => decide (x < S.getLastD 0))).length : ℚ) / ((min S.length W : ℕ) : ℚ) ≤ 1 := by
      rw [div_le_one hmpos]
      exact_mod_cast hkle
    linarith

/-- Witness for C1 at `S = [1, 3, 2]`, `W = 2`: the trailing window is
`[3, 2]`, no element is strictly below the last value `2`, so the percentile
is `0`. -/
theorem calculate_percentile_formula_witness :
    1 ≤ ([(1 : ℚ), 3, 2]).length ∧ (1 : ℕ) ≤ 2 ∧
      (calculate_percentile 2 [(1 : ℚ), 3, 2] (([(1 : ℚ), 3, 2]).getLastD 0)
          = 100 * ((([(1 : ℚ), 3, 2].drop (([(1 : ℚ), 3, 2]).length - min ([(1 : ℚ), 3, 2]).length 2)).filter
              (fun x => decide (x < ([(1 : ℚ), 3, 2]).getLastD 0))).length : ℚ) /
            ((min ([(1 : ℚ), 3, 2]).length 2 : ℕ) : ℚ)
        ∧ 0 ≤ calculate_percentile 2 [(1 : ℚ), 3, 2] (([(1 : ℚ), 3, 2]).getLastD 0)
        ∧ calculate_percentile 2 [(1 : ℚ), 3, 2] (([(1 : ℚ), 3, 2]).getLastD 0) ≤ 100) :=
  ⟨by decide, by decide, calculate_percentile_formula 2 [(1 : ℚ), 3, 2] (by decide) (by decide)⟩

/-- C2: `_calculate_historical_percentiles` returns a list of length exactly
`max 0 (n - W)`, and the entry for index `i` (stored at position `i - W`) is
computed from the window `series[i-W : i]`, of length exactly `W` and excluding
`series[i]` itself, as 100 times the fraction of window elements strictly less
than `series[i]`. -/
theorem calculate_historical_percentiles_spec (W : ℕ) (S : List ℚ) (hW : 1 ≤ W) :
    ((calculate_historical_percentiles W S).length : ℤ) = max 0 ((S.length : ℤ) - (W : ℤ))
      ∧ ∀ i : ℕ, W ≤ i → i < S.length →
          ((S.drop (i - W)).take W).length = W
            ∧ (calculate_historical_percentiles W S).getD (i - W) 0
                = 100 * ((((S.drop (i - W)).take W).filter
                    (fun x => decide (x < S.getD i 0))).length : ℚ) / ((W : ℕ) : ℚ) := by
  constructor
  · rw [length_calculate_historical_percentiles]
    omega
  · intro i h1 h2
    have hwlen : ((S.drop (i - W)).take W).length = W := by
      rw [List.length_take, List.length_drop]
      omega
    refine ⟨hwlen, ?_⟩
    rw [getD_calculate_historical_percentiles W S i h1 h2, hwlen, div_mul_eq_mul_div, mul_comm]

/-- Witness for C2 at `S = [1, 2, 3, 4]`, `W = 2`, `i = 3`: the output has
length `2`, the window for index `3` is `[2, 3]` (length `2`), and both its
elements are below `4`, so the entry is `100`. -/
theorem calculate_historical_percentiles_spec_witness :
    (1 : ℕ) ≤ 2 ∧ (2 : ℕ) ≤ 3 ∧ 3 < ([(1 : ℚ), 2, 3, 4]).length ∧
      ((calculate_historical_percentiles 2 [(1 : ℚ), 2, 3, 4]).length : ℤ)
        = max 0 ((([(1 : ℚ), 2, 3, 4]).length : ℤ) - ((2 : ℕ) : ℤ)) ∧
      ((([(1 : ℚ), 2, 3, 4]).drop (3 - 2)).take 2).length = 2 ∧
      (calculate_historical_percentiles 2 [(1 : ℚ), 2, 3, 4]).getD (3 - 2) 0
        = 100 * ((((([(1 : ℚ), 2, 3, 4]).drop (3 - 2)).take 2).filter
            (fun x => decide (x < ([(1 : ℚ), 2, 3, 4]).getD 3 0))).length : ℚ) / (((2 : ℕ)) : ℚ) :=
  ⟨by decide, by decide, by decide,
    (calculate_historical_percentiles_spec 2 [(1 : ℚ), 2, 3, 4] (by decide)).1,
    ((calculate_historical_percentiles_spec 2 [(1 : ℚ), 2, 3, 4] (by decide)).2 3
      (by decide) (by decide)).1,
    ((calculate_historical_percentiles_spec 2 [(1 : ℚ), 2, 3, 4] (by decide)).2 3
      (by decide) (by decide)).2⟩

theorem getLastD_mem_of_ne_nil {l : List ℚ} (h : l ≠ []) : l.getLastD 0 ∈ l := by
  rw [List.getLastD_eq_getLast?]
  cases hg : l.getLast? with
  | none => exact absurd (List.getLast?_eq_none_iff.mp hg) h
  | some a =>
    obtain ⟨hne, rfl⟩ := List.mem_getLast?_eq_getLast (by rw [hg]; rfl)
    simp [List.getLast_mem hne]

theorem percent_of_constant (c : ℚ) (l : List ℚ) (hl : ∀ x ∈ l, x = c) :
    ((l.filter (fun x => decide (x < c))).length : ℚ) / (l.length : ℚ) * 100 = 0 := by
  have hnil : l.filter (fun x => decide (x < c)) = [] := by
    rw [List.filter_eq_nil_iff]
    intro a ha
    simp [hl a ha]
  rw [hnil]
  simp

/-- C8: on a constant series (all values equal to `c`, at least `W ≥ 1` of
them) the percentile of the last value is `0`, and every entry of the
historical percentile sequence is `0`: the strict `<` filter never counts an
element equal to the reference value. -/
theorem constant_series_percentile_zero (c : ℚ) (W : ℕ) (S : List ℚ)
    (hW : 1 ≤ W) (hlen : W ≤ S.length) (hconst : ∀ x ∈ S, x = c) :
    calculate_percentile W S (S.getLastD 0) = 0
      ∧ ∀ p ∈ calculate_historical_percentiles W S, p = 0 := by
  have hne : S ≠ [] := by
    intro h
    rw [h] at hlen
    simp at hlen
    omega
  have hv : S.getLastD 0 = c := hconst _ (getLastD_mem_of_ne_nil hne)
  constructor
  · rw [hv]
    unfold calculate_percentile
    split
    all_goals
      first
        | exact percent_of_constant c _ hconst
        | exact percent_of_constant c _ fun x hx =>
            hconst x (List.Sublist.mem hx (List.drop_sublist _ _))
  · intro p hp
    rw [calculate_historical_percentiles, List.mem_map] at hp
    obtain ⟨i, hi, hfi⟩ := hp
    rw [List.mem_range'] at hi
    obtain ⟨j, hj, rfl⟩ := hi
    have hilt : W + 1 * j < S.length := by omega
    have hcur : S.getD (W + 1 * j) 0 = c := by
      rw [List.getD_eq_getElem _ _ hilt]
      exact hconst _ (List.getElem_mem hilt)
    rw [← hfi]
    simp only [hcur]
    exact percent_of_constant c _ fun x hx =>
      hconst x (List.Sublist.mem hx
        (List.Sublist.trans (List.take_sublist _ _) (List.drop_sublist _ _)))

/-- Witness for C8 at the constant series `[3, 3, 3, 3, 3]` with `W = 3`. -/
theorem constant_series_percentile_zero_witness :
    (1 : ℕ) ≤ 3 ∧ (3 : ℕ) ≤ ([(3 : ℚ), 3, 3, 3, 3]).length ∧
      (calculate_percentile 3 [(3 : ℚ), 3, 3, 3, 3] (([(3 : ℚ), 3, 3, 3, 3]).getLastD 0) = 0
        ∧ ∀ p ∈ calculate_historical_percentiles 3 [(3 : ℚ), 3, 3, 3, 3], p = 0) :=
  ⟨by decide, by decide,
    constant_series_percentile_zero 3 3 [(3 : ℚ), 3, 3, 3, 3]
      (by decide) (by decide) (by decide)⟩

/-- The series sorted ascending (pandas keeps values sorted internally for
order statistics; `mergeSort` is stable, matching pandas). -/
def sorted_series (S : List ℚ) : List ℚ :=
  S.mergeSort fun a b => decide (a ≤ b)

/-- `series.mean()`. -/
def series_mean (S : List ℚ) : ℚ :=
  S.sum / (S.length : ℚ)

/-- `series.median()`: middle element of the sorted values, or the average of
the two middle elements for even length. -/
def series_median (S : List ℚ) : ℚ :=
  let s := sorted_series S
  if s.length % 2 = 1 then s.getD (s.length / 2) 0
  else (s.getD (s.length / 2 - 1) 0 + s.getD (s.length / 2) 0) / 2

/-- `series.min()`. -/
def series_min (S : List ℚ) : ℚ :=
  (sorted_series S).headD 0

/-- `series.max()`. -/
def series_max (S : List ℚ) : ℚ :=
  (sorted_series S).getLastD 0

/-- The sample variance with pandas' default `ddof = 1`
(`Σ (x - mean)² / (n - 1)`).  For `n < 2` pandas' `series.std()` yields `NaN`
(a `0 / 0`), modelled here as `none`. -/
def sample_variance (S : List ℚ) : Option ℚ :=
  if S.length < 2 then none
  else some ((((List.range S.length).map fun i => (S.getD i 0 - series_mean S) ^ 2).sum) /
    ((S.length : ℚ) - 1))

/-- `series.quantile(q)` with pandas' default linear interpolation: position
`h = (n - 1) * q` in the sorted values, interpolating between the two
neighbouring order statistics. -/
def series_quantile (S : List ℚ) (q : ℚ) : ℚ :=
  let s := sorted_series S
  let h : ℚ := ((s.length : ℚ) - 1) * q
  let lo : ℕ := (Int.floor h).toNat
  s.getD lo 0 + (h - (lo : ℚ)) * (s.getD (lo + 1) (s.getD lo 0) - s.getD lo 0)

/-- The statistics record built by `PercentileService._calculate_statistics`
(percentile_service.py, lines 248-262), every entry rounded to 2 decimals.
`std` is `Option ℝ`: `none` models pandas' `NaN` (no numeric value). -/
structure Statistics where
  mean : ℚ
  median : ℚ
  std : Option ℝ
  min : ℚ
  max : ℚ
  q25 : ℚ
  q75 : ℚ

/-- `PercentileService._calculate_statistics` (percentile_service.py, lines
248-262): descriptive statistics of the entire series, each rounded to 2
decimals; `std = sqrt` of the sample variance when it exists. -/
noncomputable def calculate_statistics (series : List ℚ) : Statistics :=
  { mean := pyRound (series_mean series) 2
    median := pyRound (series_median series) 2
    std := (sample_variance series).map fun v => pyRound (Real.sqrt (v : ℝ)) 2
    min := pyRound (series_min series) 2
    max := pyRound (series_max series) 2
    q25 := pyRound (series_quantile series (1 / 4)) 2
    q75 := pyRound (series_quantile series (3 / 4)) 2 }

/-- C6 counterexample: on the length-1 series `[5]` the code's `std` (pandas
sample standard deviation, `ddof = 1`) is `NaN` — no numeric value, modelled
`none` — and in particular it is NOT `0` as the claim states. -/
theorem calculate_statistics_std_singleton_counterexample :
    (calculate_statistics [(5 : ℚ)]).std = none
      ∧ (calculate_statistics [(5 : ℚ)]).std ≠ some 0 := by
  refine ⟨rfl, ?_⟩
  rw [show (calculate_statistics [(5 : ℚ)]).std = none from rfl]
  simp

/-- C6 amended: `_calculate_statistics` computes mean, median, std, min, max,
q25 and q75 over the entire provided series and raises no division-by-zero
error on a length-1 series; however for length 1 the sample standard deviation
is `NaN` (here `none`) — not `0` — while every other field is the single
element (rounded to 2 decimals). -/
theorem calculate_statistics_singleton (S : List ℚ) (h : S.length = 1) :
    calculate_statistics S =
      { mean := pyRound (S.headD 0) 2, median := pyRound (S.headD 0) 2, std := none,
        min := pyRound (S.headD 0) 2, max := pyRound (S.headD 0) 2,
        q25 := pyRound (S.headD 0) 2, q75 := pyRound (S.headD 0) 2 } := by
  obtain ⟨a, rfl⟩ : ∃ a, S = [a] := by
    cases S with
    | nil => simp at h
    | cons a t =>
      cases t with
      | nil => exact ⟨a, rfl⟩
      | cons b t2 => simp at h
  simp [calculate_statistics, series_mean, series_median, series_min, series_max,
    series_quantile, sample_variance, sorted_series, List.mergeSort_singleton,
    Statistics.mk.injEq]

/-- Witness for the amended C6 at `S = [5]`. -/
theorem calculate_statistics_singleton_witness :
    ([(5 : ℚ)]).length = 1 ∧
      calculate_statistics [(5 : ℚ)] =
        { mean := pyRound (([(5 : ℚ)]).headD 0) 2, median := pyRound (([(5 : ℚ)]).headD 0) 2,
          std := none, min := pyRound (([(5 : ℚ)]).headD 0) 2,
          max := pyRound (([(5 : ℚ)]).headD 0) 2, q25 := pyRound (([(5 : ℚ)]).headD 0) 2,
          q75 := pyRound (([(5 : ℚ)]).headD 0) 2 } :=
  ⟨by decide, calculate_statistics_singleton [(5 : ℚ)] (by decide)⟩

/-- Python exceptions relevant to the service: `ValueError` (the
insufficient-data signal) versus any other exception; `message` is `str(e)`. -/
inductive PyError where
  | valueError (msg : String)
  | generic (msg : String)
deriving DecidableEq

def PyError.message : PyError → String
  | .valueError m => m
  | .generic m => m

/-- The `ValueError` text raised by `get_stock_percentile` on missing or
too-short data (percentile_service.py, line 40). -/
def stock_insufficient_msg (symbol : String) : String :=
  "股票 " ++ symbol ++ " 数据不足，无法计算百分位"

/-- The `ValueError` text raised by `get_bond_percentile` on missing or
too-short data (percentile_service.py, line 88). -/
def bond_insufficient_msg (symbol : String) : String :=
  "债券 " ++ symbol ++ " 数据不足，无法计算百分位"

/-- The numeric content of the result dict of
`PercentileService.get_stock_percentile` (percentile_service.py, lines 52-61);
`period` and `last_update` (non-numeric presentation fields) are omitted. -/
structure StockResult where
  symbol : String
  current_price : ℚ
  percentile : ℚ
  data_points : ℕ
  statistics : Statistics
  historical_percentiles : List ℚ

/-- The numeric content of the result dict of
`PercentileService.get_bond_percentile` (percentile_service.py, lines 100-109). -/
structure BondResult where
  symbol : String
  current_yield : ℚ
  percentile : ℚ
  data_points : ℕ
  statistics : Statistics
  historical_percentiles : List ℚ

/-- `PercentileService.get_stock_percentile` (percentile_service.py, lines
22-68).  The external data fetch `_get_stock_data` is abstracted into the
`data` argument (`none` models a failed fetch).  Missing or too-short data
raises `ValueError` (propagated by the re-raising `except`); otherwise the
result is built from the close-price series: current price (rounded to 2),
percentile of the last value (rounded to 2), statistics, and the trailing 30
entries of the historical percentile sequence. -/
noncomputable def get_stock_percentile (min_data_points window : ℕ) (symbol : String)
    (data : Option (List ℚ)) : Except PyError StockResult :=
  match data with
  | none => .error (.valueError (stock_insufficient_msg symbol))
  | some s =>
    if s.length < min_data_points then .error (.valueError (stock_insufficient_msg symbol))
    else
      .ok { symbol := symbol
            current_price := pyRound (s.getLastD 0) 2
            percentile := pyRound (calculate_percentile window s (s.getLastD 0)) 2
            data_points := s.length
            statistics := calculate_statistics s
            historical_percentiles := lastN 30 (calculate_historical_percentiles window s) }

/-- `PercentileService.get_bond_percentile` (percentile_service.py, lines
70-116): same shape as the stock version on the yield series, with the current
yield rounded to 4 decimals. -/
noncomputable def get_bond_percentile (min_data_points window : ℕ) (symbol : String)
    (data : Option (List ℚ)) : Except PyError BondResult :=
  match data with
  | none => .error (.valueError (bond_insufficient_msg symbol))
  | some s =>
    if s.length < min_data_points then .error (.valueError (bond_insufficient_msg symbol))
    else
      .ok { symbol := symbol
            current_yield := pyRound (s.getLastD 0) 4
            percentile := pyRound (calculate_percentile window s (s.getLastD 0)) 2
            data_points := s.length
            statistics := calculate_statistics s
            historical_percentiles := lastN 30 (calculate_historical_percentiles window s) }

/-- The `/stock/{symbol}/percentile` route handler (stocks.py, lines 31-67):
symbols shorter than 3 characters are rejected with HTTP 400; a `ValueError`
from the service becomes HTTP 400 carrying `str(e)`; any other exception
becomes HTTP 500. -/
noncomputable def get_stock_percentile_route (min_data_points window : ℕ) (symbol : String)
    (data : Option (List ℚ)) : Except (ℕ × String) StockResult :=
  if symbol.length < 3 then .error (400, "股票代码格式不正确")
  else
    match get_stock_percentile min_data_points window symbol data with
    | .ok r => .ok r
    | .error (.valueError m) => .error (400, m)
    | .error (.generic _) => .error (500, "获取股票百分位失败")

/-- The `/bond/{symbol}/percentile` route handler (bonds.py, lines 31-67). -/
noncomputable def get_bond_percentile_route (min_data_points window : ℕ) (symbol : String)
    (data : Option (List ℚ)) : Except (ℕ × String) BondResult :=
  if symbol.length < 3 then .error (400, "债券代码格式不正确")
  else
    match get_bond_percentile min_data_points window symbol data with
    | .ok r => .ok r
    | .error (.valueError m) => .error (400, m)
    | .error (.generic _) => .error (500, "获取债券百分位失败")

/-- C3: when the data source fails (`none`) or the loaded series has fewer
than `M` points, both percentile operations fail with the propagated
insufficient-data `ValueError`, surfaced by the route as HTTP 400; the
operation is never a success (`isOk = false`), so this path is distinct from
the internal 50.0 fallback, which lives inside `_calculate_percentile` and is
reachable only on an unexpected computation exception (none exists in the
total model — the success path always computes the true percentile). -/
theorem insufficient_data_is_client_error (M W : ℕ) (symbol : String) (data : Option (List ℚ))
    (hsym : 3 ≤ symbol.length)
    (h : data = none ∨ ∃ s, data = some s ∧ s.length < M) :
    (get_stock_percentile M W symbol data = .error (.valueError (stock_insufficient_msg symbol))
      ∧ get_stock_percentile_route M W symbol data = .error (400, stock_insufficient_msg symbol)
      ∧ (get_stock_percentile M W symbol data).isOk = false)
    ∧ (get_bond_percentile M W symbol data = .error (.valueError (bond_insufficient_msg symbol))
      ∧ get_bond_percentile_route M W symbol data = .error (400, bond_insufficient_msg symbol)
      ∧ (get_bond_percentile M W symbol data).isOk = false) := by
  have hserv : get_stock_percentile M W symbol data
      = .error (.valueError (stock_insufficient_msg symbol)) := by
    rcases h with rfl | ⟨s, rfl, hs⟩
    · rfl
    · simp [get_stock_percentile, hs]
  have hbond : get_bond_percentile M W symbol data
      = .error (.valueError (bond_insufficient_msg symbol)) := by
    rcases h with rfl | ⟨s, rfl, hs⟩
    · rfl
    · simp [get_bond_percentile, hs]
  have hsym3 : ¬ (symbol.length < 3) := by omega
  refine ⟨⟨hserv, ?_, ?_⟩, hbond, ?_, ?_⟩
  · rw [get_stock_percentile_route, if_neg hsym3, hserv]
  · rw [hserv]
    rfl
  · rw [get_bond_percentile_route, if_neg hsym3, hbond]
  · rw [hbond]
    rfl

/-- Witness for C3: symbol `000001.SZ` with a failed data fetch (`none`) and
the configured defaults `M = 60`, `W = 252`. -/
theorem insufficient_data_is_client_error_witness :
    3 ≤ ("000001.SZ").length ∧
      ((get_stock_percentile 60 252 "000001.SZ" none
          = .error (.valueError (stock_insufficient_msg "000001.SZ"))
        ∧ get_stock_percentile_route 60 252 "000001.SZ" none
            = .error (400, stock_insufficient_msg "000001.SZ")
        ∧ (get_stock_percentile 60 252 "000001.SZ" none).isOk = false)
      ∧ (get_bond_percentile 60 252 "000001.SZ" none
          = .error (.valueError (bond_insufficient_msg "000001.SZ"))
        ∧ get_bond_percentile_route 60 252 "000001.SZ" none
            = .error (400, bond_insufficient_msg "000001.SZ")
        ∧ (get_bond_percentile 60 252 "000001.SZ" none).isOk = false)) :=
  ⟨by decide,
    insufficient_data_is_client_error 60 252 "000001.SZ" none (by decide) (Or.inl rfl)⟩

theorem lastN_length {α : Type} (k : ℕ) (l : List α) : (lastN k l).length = min k l.length := by
  simp only [lastN, List.length_drop]
  omega

/-- The input-alignment step of `analyze_correlation` (analysis.py, lines
226-238): both historical percentile lists must have at least 10 entries
(HTTP 400 otherwise), then the trailing `min` of the two lengths is taken from
each before the Pearson coefficient is computed. -/
def analyze_correlation_inputs (historical1 historical2 : List ℚ) :
    Except (ℕ × String) (List ℚ × List ℚ) :=
  if historical1.length < 10 ∨ historical2.length < 10 then
    .error (400, "数据不足，无法计算相关性")
  else
    .ok (lastN (min historical1.length historical2.length) historical1,
      lastN (min historical1.length historical2.length) historical2)

theorem analyze_correlation_inputs_le (h1 h2 : List ℚ) (hc : h1.length ≤ 30)
    (p : List ℚ × List ℚ) (hp : analyze_correlation_inputs h1 h2 = .ok p) :
    p.1.length ≤ 30 ∧ p.2.length ≤ 30 := by
  rw [analyze_correlation_inputs] at hp
  split at hp
  · exact absurd hp (by simp)
  · injection hp with h
    subst h
    rw [lastN_length, lastN_length]
    omega

/-- C7 amended: the service truncates the historical percentile sequence to
the most recent `min 30 (n - W)` entries; the internal engine
(`_calculate_historical_percentiles`) does produce the full `n - W`-length
sequence, but the service result hard-codes the cap 30 — there is no
caller-supplied trailing-slice length — so the correlation analytics never
consume more than 30 entries per side. -/
theorem historical_percentiles_truncated_to_30 (M W : ℕ) (symbol : String) (s : List ℚ)
    (hM : M ≤ s.length) :
    ∃ r, get_stock_percentile M W symbol (some s) = .ok r
      ∧ r.historical_percentiles = lastN 30 (calculate_historical_percentiles W s)
      ∧ r.historical_percentiles.length = min 30 (s.length - W)
      ∧ (calculate_historical_percentiles W s).length = s.length - W
      ∧ ∀ h2 p, analyze_correlation_inputs r.historical_percentiles h2 = .ok p →
          p.1.length ≤ 30 ∧ p.2.length ≤ 30 := by
  have hM2 : ¬ (s.length < M) := by omega
  have hok : get_stock_percentile M W symbol (some s)
      = .ok { symbol := symbol
              current_price := pyRound (s.getLastD 0) 2
              percentile := pyRound (calculate_percentile W s (s.getLastD 0)) 2
              data_points := s.length
              statistics := calculate_statistics s
              historical_percentiles := lastN 30 (calculate_historical_percentiles W s) } := by
    rw [get_stock_percentile, if_neg hM2]
  refine ⟨_, hok, rfl, ?_, length_calculate_historical_percentiles W s, ?_⟩
  · show (lastN 30 (calculate_historical_percentiles W s)).length = min 30 (s.length - W)
    rw [lastN_length, length_calculate_historical_percentiles]
  · intro h2 p hp
    exact analyze_correlation_inputs_le _ h2
      (by rw [lastN_length]; omega) p hp

/-- Witness for the amended C7: a 40-point series with `M = 1`, `W = 2`. -/
theorem historical_percentiles_truncated_to_30_witness :
    (1 : ℕ) ≤ (List.replicate 40 (0 : ℚ)).length ∧
      ∃ r, get_stock_percentile 1 2 "600000.SH" (some (List.replicate 40 (0 : ℚ))) = .ok r
        ∧ r.historical_percentiles
            = lastN 30 (calculate_historical_percentiles 2 (List.replicate 40 (0 : ℚ)))
        ∧ r.historical_percentiles.length = min 30 ((List.replicate 40 (0 : ℚ)).length - 2)
        ∧ (calculate_historical_percentiles 2 (List.replicate 40 (0 : ℚ))).length
            = (List.replicate 40 (0 : ℚ)).length - 2
        ∧ ∀ h2 p, analyze_correlation_inputs r.historical_percentiles h2 = .ok p →
            p.1.length ≤ 30 ∧ p.2.length ≤ 30 :=
  ⟨by simp,
    historical_percentiles_truncated_to_30 1 2 "600000.SH" (List.replicate 40 (0 : ℚ))
      (by simp)⟩

/-- C7 counterexample: for a 40-point series with window 2 the engine's full
historical sequence has 38 entries, yet the service result carries exactly 30
— the most recent 30 — and `30 ≠ 38`: the service offers no way to obtain the
longer slice, refuting the claimed arbitrary-trailing-slice contract. -/
theorem historical_percentiles_cap_counterexample :
    ((get_stock_percentile 1 2 "600000.SH" (some (List.replicate 40 (0 : ℚ)))).toOption.map
        fun r => r.historical_percentiles.length) = some 30
      ∧ (calculate_historical_percentiles 2 (List.replicate 40 (0 : ℚ))).length = 38
      ∧ (30 : ℕ) ≠ 38 := by
  have hlen : (List.replicate 40 (0 : ℚ)).length = 40 := by simp
  refine ⟨?_, ?_, by decide⟩
  · rw [get_stock_percentile, if_neg (by rw [hlen]; omega)]
    simp only [Except.toOption, Option.map]
    rw [lastN_length, length_calculate_historical_percentiles, hlen]
    norm_num
  · rw [length_calculate_historical_percentiles, hlen]

/-- The trend metrics computed by `analyze_trend` (analysis.py, lines 127-170);
the recommendation string (presentation layer) and the rounding applied when
the response dict is assembled are omitted — these are the computation-level
values of lines 133-152. -/
structure TrendAnalysis where
  trend_direction : String
  trend_strength : ℚ
  volatility : ℚ
  ma_7 : ℚ
  ma_14 : ℚ
deriving DecidableEq

/-- `analyze_trend`'s computation on the historical percentile list
(analysis.py, lines 127-152): fewer than 7 entries is HTTP 400; otherwise
moving averages of the trailing 7 and 14 entries (the 14-entry average falls
back to the 7-entry one), strength `|last - first|`, three-way direction
(`上升` / `下降` / `横盘`), and mean absolute consecutive difference as
volatility. -/
def analyze_trend (historical : List ℚ) : Except (ℕ × String) TrendAnalysis :=
  if historical.length < 7 then .error (400, "数据不足，无法分析趋势")
  else
    let percentiles := historical
    let ma_7 := if 7 ≤ percentiles.length then (lastN 7 percentiles).sum / 7
      else percentiles.sum / (percentiles.length : ℚ)
    let ma_14 := if 14 ≤ percentiles.length then (lastN 14 percentiles).sum / 14 else ma_7
    let trend_strength := |percentiles.getLastD 0 - percentiles.headD 0|
    let trend_direction :=
      if percentiles.getLastD 0 > percentiles.headD 0 then "上升"
      else if percentiles.getLastD 0 < percentiles.headD 0 then "下降"
      else "横盘"
    let volatility := ((List.range' 1 (percentiles.length - 1)).map fun i =>
      |percentiles.getD i 0 - percentiles.getD (i - 1) 0|).sum / ((percentiles.length : ℚ) - 1)
    .ok { trend_direction := trend_direction, trend_strength := trend_strength,
          volatility := volatility, ma_7 := ma_7, ma_14 := ma_14 }

/-- `get_stock_trend`'s computation (stocks.py, lines 144-163): fewer than 7
historical entries is HTTP 400; otherwise the last 7 percentiles are sliced
and the trend is `上升` when the last strictly exceeds the first, else `下降`
— there is no third case.  Returns (trend, strength, recent slice); the
recommendation string is omitted. -/
def get_stock_trend (historical : List ℚ) : Except (ℕ × String) (String × ℚ × List ℚ) :=
  if historical.length < 7 then .error (400, "数据不足，无法分析趋势")
  else
    let recent_percentiles := lastN 7 historical
    let trend := if recent_percentiles.getLastD 0 > recent_percentiles.getD 0 0
      then "上升" else "下降"
    let trend_strength := |recent_percentiles.getLastD 0 - recent_percentiles.getD 0 0|
    .ok (trend, trend_strength, recent_percentiles)

theorem trend_direction_cases (a b : ℚ) :
    ((if b > a then "上升" else if b < a then "下降" else "横盘") = "上升" ↔ a < b)
      ∧ ((if b > a then "上升" else if b < a then "下降" else "横盘") = "下降" ↔ b < a)
      ∧ ((if b > a then "上升" else if b < a then "下降" else "横盘") = "横盘" ↔ b = a) := by
  rcases lt_trichotomy a b with h1 | h1 | h1
  · rw [if_pos (show b > a from h1)]
    exact ⟨iff_of_true rfl h1, iff_of_false (by decide) (lt_asymm h1),
      iff_of_false (by decide) (ne_of_gt h1)⟩
  · subst h1
    rw [if_neg (lt_irrefl a), if_neg (lt_irrefl a)]
    exact ⟨iff_of_false (by decide) (lt_irrefl a), iff_of_false (by decide) (lt_irrefl a),
      iff_of_true rfl rfl⟩
  · rw [if_neg (show ¬ b > a from lt_asymm h1), if_pos h1]
    exact ⟨iff_of_false (by decide) (lt_asymm h1), iff_of_true rfl h1,
      iff_of_false (by decide) (ne_of_lt h1)⟩

theorem stock_trend_cases (a b : ℚ) :
    ((if b > a then "上升" else "下降") = "上升" ↔ a < b)
      ∧ ((if b > a then "上升" else "下降") = "下降" ↔ ¬ a < b)
      ∧ (if b > a then "上升" else "下降") ≠ "横盘" := by
  by_cases h1 : b > a
  · rw [if_pos h1]
    exact ⟨iff_of_true rfl h1, iff_of_false (by decide) (not_not_intro h1), by decide⟩
  · rw [if_neg h1]
    exact ⟨iff_of_false (by decide) h1, iff_of_true rfl h1, by decide⟩

/-- C5 amended: for slices of at least 7 entries, the claimed rule — direction
`上升` (up) iff last > first, `下降` (down) iff last < first, `横盘` (flat)
iff equal, strength `|last − first|` — holds for the trend-analysis endpoint
(`analyze_trend`); the stock-trend endpoint (`get_stock_trend`) computes the
same strength over its 7-entry slice but collapses the direction to two cases:
`上升` iff last > first and `下降` otherwise — equal first and last values
yield `下降`, never a flat label. -/
theorem trend_direction_strength (h : List ℚ) (hlen : 7 ≤ h.length) :
    (∃ ta, analyze_trend h = .ok ta
      ∧ (ta.trend_direction = "上升" ↔ h.headD 0 < h.getLastD 0)
      ∧ (ta.trend_direction = "下降" ↔ h.getLastD 0 < h.headD 0)
      ∧ (ta.trend_direction = "横盘" ↔ h.getLastD 0 = h.headD 0)
      ∧ ta.trend_strength = |h.getLastD 0 - h.headD 0|)
    ∧ (∃ t s r, get_stock_trend h = .ok (t, s, r)
      ∧ r = lastN 7 h
      ∧ (t = "上升" ↔ r.getD 0 0 < r.getLastD 0)
      ∧ (t = "下降" ↔ ¬ r.getD 0 0 < r.getLastD 0)
      ∧ t ≠ "横盘"
      ∧ s = |r.getLastD 0 - r.getD 0 0|) := by
  have hnot : ¬ (h.length < 7) := by omega
  constructor
  · rw [analyze_trend, if_neg hnot]
    exact ⟨_, rfl, (trend_direction_cases (h.headD 0) (h.getLastD 0)).1,
      (trend_direction_cases (h.headD 0) (h.getLastD 0)).2.1,
      (trend_direction_cases (h.headD 0) (h.getLastD 0)).2.2, rfl⟩
  · rw [get_stock_trend, if_neg hnot]
    exact ⟨_, _, _, rfl, rfl,
      (stock_trend_cases ((lastN 7 h).getD 0 0) ((lastN 7 h).getLastD 0)).1,
      (stock_trend_cases ((lastN 7 h).getD 0 0) ((lastN 7 h).getLastD 0)).2.1,
      (stock_trend_cases ((lastN 7 h).getD 0 0) ((lastN 7 h).getLastD 0)).2.2, rfl⟩

/-- Witness for the amended C5 at the spec's example slice
`[40, 45, 50, 55, 60, 62, 70]`. -/
theorem trend_direction_strength_witness :
    (7 : ℕ) ≤ ([(40 : ℚ), 45, 50, 55, 60, 62, 70]).length ∧
      ((∃ ta, analyze_trend [(40 : ℚ), 45, 50, 55, 60, 62, 70] = .ok ta
        ∧ (ta.trend_direction = "上升" ↔
            ([(40 : ℚ), 45, 50, 55, 60, 62, 70]).headD 0
              < ([(40 : ℚ), 45, 50, 55, 60, 62, 70]).getLastD 0)
        ∧ (ta.trend_direction = "下降" ↔
            ([(40 : ℚ), 45, 50, 55, 60, 62, 70]).getLastD 0
              < ([(40 : ℚ), 45, 50, 55, 60, 62, 70]).headD 0)
        ∧ (ta.trend_direction = "横盘" ↔
            ([(40 : ℚ), 45, 50, 55, 60, 62, 70]).getLastD 0
              = ([(40 : ℚ), 45, 50, 55, 60, 62, 70]).headD 0)
        ∧ ta.trend_strength = |([(40 : ℚ), 45, 50, 55, 60, 62, 70]).getLastD 0
            - ([(40 : ℚ), 45, 50, 55, 60, 62, 70]).headD 0|)
      ∧ (∃ t s r, get_stock_trend [(40 : ℚ), 45, 50, 55, 60, 62, 70] = .ok (t, s, r)
        ∧ r = lastN 7 [(40 : ℚ), 45, 50, 55, 60, 62, 70]
        ∧ (t = "上升" ↔ r.getD 0 0 < r.getLastD 0)
        ∧ (t = "下降" ↔ ¬ r.getD 0 0 < r.getLastD 0)
        ∧ t ≠ "横盘"
        ∧ s = |r.getLastD 0 - r.getD 0 0|)) :=
  ⟨by decide, trend_direction_strength [(40 : ℚ), 45, 50, 55, 60, 62, 70] (by decide)⟩

/-- C5 counterexample: on the constant 7-entry slice `[50, ..., 50]` (last
value equal to first) the trend-analysis endpoint reports `横盘` (flat), but
the stock-trend endpoint reports `下降` (down) — not flat — refuting the
claim that the flat-on-equal rule holds for every trend operation. -/
theorem stock_trend_no_flat_counterexample :
    (analyze_trend [(50 : ℚ), 50, 50, 50, 50, 50, 50]).toOption
        = some { trend_direction := "横盘", trend_strength := 0, volatility := 0,
                 ma_7 := 50, ma_14 := 50 }
      ∧ (get_stock_trend [(50 : ℚ), 50, 50, 50, 50, 50, 50]).toOption
          = some ("下降", 0, [(50 : ℚ), 50, 50, 50, 50, 50, 50])
      ∧ ("下降" : String) ≠ "横盘" := by
  refine ⟨?_, ?_, by decide⟩
  · norm_num [analyze_trend, Except.toOption, lastN, List.range', TrendAnalysis.mk.injEq]
  · norm_num [get_stock_trend, Except.toOption, lastN]

/-- The Pearson numerator of `_calculate_correlation` (analysis.py, line 328):
`Σ (x[i] - mean_x) * (y[i] - mean_y)` over `i` in `range n`, `n = len x`. -/
def corr_numerator (x y : List ℚ) : ℚ :=
  ((List.range x.length).map fun i =>
    (x.getD i 0 - series_mean x) * (y.getD i 0 - series_mean y)).sum

/-- A denominator term of `_calculate_correlation` (analysis.py, lines
329-330): the sum of squared deviations from the mean.  (In the source both
sums run over `range(len x)`; they are only consulted after the
equal-lengths guard, where this is the same as running over each list's own
indices.) -/
def sq_dev_sum (x : List ℚ) : ℚ :=
  ((List.range x.length).map fun i => (x.getD i 0 - series_mean x) ^ 2).sum

/-- `_calculate_correlation` (analysis.py, lines 314-336): `0.0` on unequal
lengths, fewer than two points, or a zero denominator term; otherwise the
Pearson coefficient `numerator / sqrt(denominator_x * denominator_y)` clamped
to `[-1, 1]` by `max(-1.0, min(1.0, ·))`. -/
noncomputable def calculate_correlation (x y : List ℚ) : ℝ :=
  if x.length ≠ y.length then 0
  else if x.length < 2 then 0
  else if sq_dev_sum x = 0 ∨ sq_dev_sum y = 0 then 0
  else max (-1) (min 1 ((corr_numerator x y : ℝ) /
    Real.sqrt ((sq_dev_sum x : ℝ) * (sq_dev_sum y : ℝ))))

/-- C4: the correlation function returns the Pearson coefficient
`numerator / sqrt(denominator_x * denominator_y)` (clamped); when either
sum-of-squared-deviations term is exactly zero it returns `0.0` instead of
dividing by zero; and for every pair of input lists the result lies in
`[-1, 1]`. -/
theorem calculate_correlation_spec (x y : List ℚ) :
    (-1 ≤ calculate_correlation x y ∧ calculate_correlation x y ≤ 1)
      ∧ (sq_dev_sum x = 0 ∨ sq_dev_sum y = 0 → calculate_correlation x y = 0)
      ∧ (x.length = y.length → 2 ≤ x.length → ¬ (sq_dev_sum x = 0 ∨ sq_dev_sum y = 0) →
          calculate_correlation x y
            = max (-1) (min 1 ((corr_numerator x y : ℝ) /
                Real.sqrt ((sq_dev_sum x : ℝ) * (sq_dev_sum y : ℝ))))) := by
  unfold calculate_correlation
  split_ifs with h1 h2 h3
  · exact ⟨⟨by norm_num, by norm_num⟩, fun _ => rfl, fun hl _ _ => absurd hl h1⟩
  · exact ⟨⟨by norm_num, by norm_num⟩, fun _ => rfl, fun _ hl _ => by omega⟩
  · exact ⟨⟨by norm_num, by norm_num⟩, fun _ => rfl, fun _ _ hd => absurd h3 hd⟩
  · exact ⟨⟨le_max_left _ _, max_le (by norm_num) (min_le_left _ _)⟩,
      fun hd => absurd hd h3, fun _ _ _ => rfl⟩

/-- Witness for C4: `x = [1, 1]` is constant, so its squared-deviation sum is
zero and the coefficient is `0.0` (no division by zero). -/
theorem calculate_correlation_spec_witness :
    sq_dev_sum [(1 : ℚ), 1] = 0 ∧ calculate_correlation [(1 : ℚ), 1] [(1 : ℚ), 2] = 0 :=
  ⟨by norm_num [sq_dev_sum, series_mean, show List.range 2 = [0, 1] from rfl],
    (calculate_correlation_spec [(1 : ℚ), 1] [(1 : ℚ), 2]).2.1
      (Or.inl (by norm_num [sq_dev_sum, series_mean, show List.range 2 = [0, 1] from rfl]))⟩

/-- The data dict of the batch responses (stocks.py lines 104-114, bonds.py
lines 104-114), generic in the per-symbol result type. -/
structure BatchData (ρ : Type) where
  results : List ρ
  errors : List (String × String)
  total : ℕ
  success_count : ℕ
  error_count : ℕ

/-- The shared per-symbol loop of the batch endpoints (stocks.py lines 94-102,
bonds.py lines 94-102): process the symbols in order, appending each success
to the result list and each failure, keyed by its symbol with `str(e)`, to the
error list; a failure never aborts the loop. -/
def batch_loop {ρ : Type} (proc : String → Except PyError ρ) :
    List String → List ρ × List (String × String)
  | [] => ([], [])
  | sym :: rest =>
    match proc sym with
    | .ok r => (r :: (batch_loop proc rest).1, (batch_loop proc rest).2)
    | .error e => ((batch_loop proc rest).1, (sym, e.message) :: (batch_loop proc rest).2)

theorem batch_loop_spec {ρ : Type} (proc : String → Except PyError ρ) (symbols : List String) :
    (batch_loop proc symbols).1.length = symbols.countP (fun sym => (proc sym).isOk)
      ∧ (batch_loop proc symbols).2.map Prod.fst
          = symbols.filter (fun sym => !(proc sym).isOk)
      ∧ (batch_loop proc symbols).1.length + (batch_loop proc symbols).2.length
          = symbols.length := by
  induction symbols with
  | nil => simp [batch_loop]
  | cons sym rest ih =>
    obtain ⟨ih1, ih2, ih3⟩ := ih
    cases hp : proc sym with
    | ok r =>
      refine ⟨?_, ?_, ?_⟩
      · simp [batch_loop, hp, List.countP_cons, Except.isOk, Except.toBool, ih1]
      · simp [batch_loop, hp, List.filter_cons, Except.isOk, Except.toBool, ih2]
      · simp only [batch_loop, hp, List.length_cons]
        omega
    | error e =>
      refine ⟨?_, ?_, ?_⟩
      · simp [batch_loop, hp, List.countP_cons, Except.isOk, Except.toBool, ih1]
      · simp [batch_loop, hp, List.filter_cons, Except.isOk, Except.toBool, ih2]
      · simp only [batch_loop, hp, List.length_cons]
        omega

/-- The `/stocks/batch` endpoint (stocks.py, lines 69-120).  The comma-string
parsing of the `symbols` query parameter is presentation glue and is omitted:
the endpoint is modelled on the parsed symbol list; the empty-list and
more-than-20 guards are kept. -/
noncomputable def get_batch_stock_percentiles (min_data_points window : ℕ)
    (fetch : String → Option (List ℚ)) (symbols : List String) :
    Except (ℕ × String) (BatchData StockResult) :=
  if symbols = [] then .error (400, "请提供有效的股票代码")
  else if 20 < symbols.length then .error (400, "单次最多查询20只股票")
  else
    let t := batch_loop (fun sym => get_stock_percentile min_data_points window sym (fetch sym))
      symbols
    .ok { results := t.1, errors := t.2, total := symbols.length,
          success_count := t.1.length, error_count := t.2.length }

/-- The `/bonds/batch` endpoint (bonds.py, lines 69-120): identical loop with
a 10-symbol cap and the bond service. -/
noncomputable def get_batch_bond_percentiles (min_data_points window : ℕ)
    (fetch : String → Option (List ℚ)) (symbols : List String) :
    Except (ℕ × String) (BatchData BondResult) :=
  if symbols = [] then .error (400, "请提供有效的债券代码")
  else if 10 < symbols.length then .error (400, "单次最多查询10只债券")
  else
    let t := batch_loop (fun sym => get_bond_percentile min_data_points window sym (fetch sym))
      symbols
    .ok { results := t.1, errors := t.2, total := symbols.length,
          success_count := t.1.length, error_count := t.2.length }

/-- C9: each batch endpoint processes its symbols sequentially, collecting
per-symbol failures keyed by the failing symbol into the error list without
aborting the batch: with `k` failures out of `m` symbols the successful
response holds `m - k` results and `k` errors (`results + errors = total`),
the error list's keys are exactly the failing symbols, and the overall call
succeeds. -/
theorem batch_partial_success (M W : ℕ) (fetch : String → Option (List ℚ))
    (symbols : List String) (h1 : symbols ≠ []) (h2 : symbols.length ≤ 20)
    (symbolsB : List String) (hb1 : symbolsB ≠ []) (hb2 : symbolsB.length ≤ 10) :
    (∃ b, get_batch_stock_percentiles M W fetch symbols = .ok b
      ∧ b.results.length
          = symbols.countP (fun sym => (get_stock_percentile M W sym (fetch sym)).isOk)
      ∧ b.errors.map Prod.fst
          = symbols.filter (fun sym => !(get_stock_percentile M W sym (fetch sym)).isOk)
      ∧ b.results.length + b.errors.length = symbols.length
      ∧ b.total = symbols.length ∧ b.success_count = b.results.length
      ∧ b.error_count = b.errors.length)
    ∧ (∃ b, get_batch_bond_percentiles M W fetch symbolsB = .ok b
      ∧ b.results.length
          = symbolsB.countP (fun sym => (get_bond_percentile M W sym (fetch sym)).isOk)
      ∧ b.errors.map Prod.fst
          = symbolsB.filter (fun sym => !(get_bond_percentile M W sym (fetch sym)).isOk)
      ∧ b.results.length + b.errors.length = symbolsB.length
      ∧ b.total = symbolsB.length ∧ b.success_count = b.results.length
      ∧ b.error_count = b.errors.length) := by
  constructor
  · rw [get_batch_stock_percentiles, if_neg h1, if_neg (by omega)]
    obtain ⟨hs1, hs2, hs3⟩ := batch_loop_spec
      (fun sym => get_stock_percentile M W sym (fetch sym)) symbols
    exact ⟨_, rfl, hs1, hs2, hs3, rfl, rfl, rfl⟩
  · rw [get_batch_bond_percentiles, if_neg hb1, if_neg (by omega)]
    obtain ⟨hs1, hs2, hs3⟩ := batch_loop_spec
      (fun sym => get_bond_percentile M W sym (fetch sym)) symbolsB
    exact ⟨_, rfl, hs1, hs2, hs3, rfl, rfl, rfl⟩

/-- Witness for C9: three symbols where only `B`'s series is too short
(`M = 2`), so the batch succeeds with 2 results and 1 error keyed `B`. -/
theorem batch_partial_success_witness :
    (["A", "B", "C"] : List String) ≠ [] ∧ (["A", "B", "C"] : List String).length ≤ 20 ∧
      (["A", "B", "C"] : List String).length ≤ 10 ∧
      ((∃ b, get_batch_stock_percentiles 2 1
            (fun sym => if sym = "B" then some [(1 : ℚ)] else some [(1 : ℚ), 2])
            ["A", "B", "C"] = .ok b
        ∧ b.results.length = (["A", "B", "C"] : List String).countP (fun sym =>
            (get_stock_percentile 2 1 sym
              (if sym = "B" then some [(1 : ℚ)] else some [(1 : ℚ), 2])).isOk)
        ∧ b.errors.map Prod.fst = (["A", "B", "C"] : List String).filter (fun sym =>
            !(get_stock_percentile 2 1 sym
              (if sym = "B" then some [(1 : ℚ)] else some [(1 : ℚ), 2])).isOk)
        ∧ b.results.length + b.errors.length = (["A", "B", "C"] : List String).length
        ∧ b.total = (["A", "B", "C"] : List String).length
        ∧ b.success_count = b.results.length
        ∧ b.error_count = b.errors.length)
      ∧ (∃ b, get_batch_bond_percentiles 2 1
            (fun sym => if sym = "B" then some [(1 : ℚ)] else some [(1 : ℚ), 2])
            ["A", "B", "C"] = .ok b
        ∧ b.results.length = (["A", "B", "C"] : List String).countP (fun sym =>
            (get_bond_percentile 2 1 sym
              (if sym = "B" then some [(1 : ℚ)] else some [(1 : ℚ), 2])).isOk)
        ∧ b.errors.map Prod.fst = (["A", "B", "C"] : List String).filter (fun sym =>
            !(get_bond_percentile 2 1 sym
              (if sym = "B" then some [(1 : ℚ)] else some [(1 : ℚ), 2])).isOk)
        ∧ b.results.length + b.errors.length = (["A", "B", "C"] : List String).length
        ∧ b.total = (["A", "B", "C"] : List String).length
        ∧ b.success_count = b.results.length
        ∧ b.error_count = b.errors.length)) :=
  ⟨by decide, by decide, by decide,
    batch_partial_success 2 1
      (fun sym => if sym = "B" then some [(1 : ℚ)] else some [(1 : ℚ), 2])
      ["A", "B", "C"] (by decide) (by decide) ["A", "B", "C"] (by decide) (by decide)⟩

/-- A per-symbol success entry of `compare_assets` (analysis.py, lines 44-50);
the constant `type` tag is omitted. -/
structure CompareItem where
  symbol : String
  percentile : ℚ
  value : ℚ
  statistics : Statistics

/-- The aggregate statistics dict of `compare_assets` (analysis.py, lines
78-83). -/
structure CompareStatistics where
  average_percentile : ℚ
  max_percentile : ℚ
  min_percentile : ℚ
  range : ℚ

/-- The data dict of a successful `compare_assets` response (analysis.py,
lines 75-85); the recommendation strings (presentation) are omitted. -/
structure CompareData where
  results : List CompareItem
  errors : List (String × String)
  statistics : CompareStatistics

/-- Python `max(l)` on a non-empty list. -/
def list_max (l : List ℚ) : ℚ :=
  l.foldl max (l.headD 0)

/-- Python `min(l)` on a non-empty list. -/
def list_min (l : List ℚ) : ℚ :=
  l.foldl min (l.headD 0)

/-- The per-symbol loop of `compare_assets` (analysis.py, lines 40-64), on
the stock branch: successes become compare items, failures are keyed by their
symbol. -/
def compare_loop (svc : String → Except PyError StockResult) :
    List String → List CompareItem × List (String × String)
  | [] => ([], [])
  | sym :: rest =>
    match svc sym with
    | .ok r =>
      (({ symbol := sym, percentile := r.percentile, value := r.current_price,
          statistics := r.statistics } : CompareItem) :: (compare_loop svc rest).1,
        (compare_loop svc rest).2)
    | .error e => ((compare_loop svc rest).1, (sym, e.message) :: (compare_loop svc rest).2)

/-- The aggregate step of `compare_assets` (analysis.py, lines 69-73):
`sum(percentiles) / len(percentiles)`, `max`, `min`.  On an empty list the
division is `0 / 0` — Python raises `ZeroDivisionError` — modelled as
`none`. -/
def comparison_statistics (percentiles : List ℚ) : Option CompareStatistics :=
  if percentiles.length = 0 then none
  else some { average_percentile := pyRound (percentiles.sum / (percentiles.length : ℚ)) 2
              max_percentile := pyRound (list_max percentiles) 2
              min_percentile := pyRound (list_min percentiles) 2
              range := pyRound (list_max percentiles - list_min percentiles) 2 }

/-- The `/analysis/compare` endpoint (analysis.py, lines 13-97), stock branch
(`svc` is the per-symbol service call): fewer than 2 or more than 10 symbols
is HTTP 400; the per-symbol loop collects successes and errors; results are
sorted by percentile descending (stable); the aggregate statistics step raises
on an empty result list, caught by the catch-all handler as HTTP 500 with
detail `资产比较失败`. -/
def compare_assets (svc : String → Except PyError StockResult) (symbols : List String) :
    Except (ℕ × String) CompareData :=
  if symbols.length < 2 then .error (400, "至少需要2个资产进行比较")
  else if 10 < symbols.length then .error (400, "最多比较10个资产")
  else
    let t := compare_loop svc symbols
    let sorted_results := t.1.mergeSort fun a b => decide (b.percentile ≤ a.percentile)
    match comparison_statistics (sorted_results.map fun r => r.percentile) with
    | none => .error (500, "资产比较失败")
    | some stats => .ok { results := sorted_results, errors := t.2, statistics := stats }

theorem compare_loop_results_nil (svc : String → Except PyError StockResult)
    (symbols : List String) (hfail : ∀ sym ∈ symbols, (svc sym).isOk = false) :
    (compare_loop svc symbols).1 = [] := by
  induction symbols with
  | nil => rfl
  | cons sym rest ih =>
    cases hp : svc sym with
    | ok r =>
      have := hfail sym (by simp)
      rw [hp] at this
      simp [Except.isOk, Except.toBool] at this
    | error e =>
      simp only [compare_loop, hp]
      exact ih fun s hs => hfail s (by simp [hs])

/-- C10: when every requested symbol fails, the per-symbol result list of
`compare_assets` is empty, the aggregate-statistics step divides by the length
of an empty list (and would take `max`/`min` of an empty list), so the
operation raises and is surfaced as HTTP 500 instead of a partial-success
response carrying only the error list. -/
theorem compare_assets_all_fail_500 (svc : String → Except PyError StockResult)
    (symbols : List String) (h1 : 2 ≤ symbols.length) (h2 : symbols.length ≤ 10)
    (hfail : ∀ sym ∈ symbols, (svc sym).isOk = false) :
    compare_assets svc symbols = .error (500, "资产比较失败") := by
  have hnil : (compare_loop svc symbols).1 = [] := compare_loop_results_nil svc symbols hfail
  simp only [compare_assets]
  rw [if_neg (by omega), if_neg (by omega), hnil, List.mergeSort_nil, List.map_nil]
  rfl

/-- Witness for C10: two symbols whose service calls both fail. -/
theorem compare_assets_all_fail_500_witness :
    2 ≤ (["A", "B"] : List String).length ∧ (["A", "B"] : List String).length ≤ 10 ∧
      (∀ sym ∈ (["A", "B"] : List String),
        ((fun _ => (.error (.valueError "no data") : Except PyError StockResult)) sym).isOk
          = false) ∧
      compare_assets (fun _ => .error (.valueError "no data")) ["A", "B"]
        = .error (500, "资产比较失败") :=
  ⟨by decide, by decide, by decide,
    compare_assets_all_fail_500 (fun _ => .error (.valueError "no data")) ["A", "B"]
      (by decide) (by decide) (by decide)⟩
